import Mathlib

/-!
Shallow embedding of the ESP32 soil-moisture controller firmware
(`esp32_soil_moisture_control.ino`): compile-time constants, the Arduino
`String` primitives used by the firmware-version parser, the pump actuation
loop, the sleep-duration policy, the OTA control flow of
`check_firmware_update`, and the per-wake-cycle state machine of `setup`
over the `RTC_DATA_ATTR`-persisted state.
-/

namespace SoilMoisture

/-! ## Compile-time constants (the `#define` lines of the sketch) -/

def MAJOR_VERSION : Int := 0

def MINOR_VERSION : Int := 0

def MICRO_VERSION : Int := 0

def TIME_TO_SLEEP : Int := 20 * 60

def ADC_DRY_VALUE : Nat := 5500

def ADC_WET_VALUE : Nat := 4000

def PUMP_ON_SECONDS_MAX : Nat := 3 * 60

/-! ## Arduino `String` primitives

These model the Arduino core `WString` operations used at lines 314-316 of
the sketch: `indexOf(char)` and `lastIndexOf(char)` return the index or
`-1`; `substring(unsigned, unsigned)` converts its `int` arguments to
32-bit unsigned, swaps them if `left > right` and clamps to the string
length; `toInt` is C `atol` (skip spaces, optional sign, leading digits,
`0` when there are none). Strings are `List Char`. -/

def toUInt32 (x : Int) : Nat := (Int.emod x ((2 : Int) ^ 32)).toNat

def indexOfChar (s : List Char) (c : Char) : Int :=
  match s.findIdx? (· = c) with
  | some i => (i : Int)
  | none => -1

def lastIndexOfChar (s : List Char) (c : Char) : Int :=
  match s.reverse.findIdx? (· = c) with
  | some i => ((s.length - 1 - i : Nat) : Int)
  | none => -1

def substringArd (s : List Char) (leftI rightI : Int) : List Char :=
  let l0 := toUInt32 leftI
  let r0 := toUInt32 rightI
  let l := if l0 > r0 then r0 else l0
  let r := if l0 > r0 then l0 else r0
  if l ≥ s.length then []
  else (s.drop l).take (min r s.length - l)

def substringFromArd (s : List Char) (leftI : Int) : List Char :=
  substringArd s leftI (s.length : Int)

def atolDigits : List Char → Nat → Nat
  | [], acc => acc
  | c :: rest, acc =>
    if c.isDigit then atolDigits rest (acc * 10 + (c.toNat - 48)) else acc

def isSpaceC (c : Char) : Bool :=
  c = ' ' || c = '\t' || c = '\n' || c = '\r'

def atol (s : List Char) : Int :=
  match s.dropWhile isSpaceC with
  | '-' :: rest => -((atolDigits rest 0 : Nat) : Int)
  | '+' :: rest => ((atolDigits rest 0 : Nat) : Int)
  | t => ((atolDigits t 0 : Nat) : Int)

/-! ## Firmware-version parsing and comparison

Direct transcription of lines 314-325 of `check_firmware_update`:

```
int major = fwversion.substring(0, fwversion.indexOf('.') - 1).toInt();
int minor = fwversion.substring(fwversion.indexOf('.') + 1,
                                fwversion.lastIndexOf('.') - 1).toInt();
int micro = fwversion.substring(fwversion.lastIndexOf('.') + 1).toInt();
```
-/

def parseFwVersion (fw : List Char) : Int × Int × Int :=
  let i := indexOfChar fw '.'
  let l := lastIndexOfChar fw '.'
  let major := atol (substringArd fw 0 (i - 1))
  let minor := atol (substringArd fw (i + 1) (l - 1))
  let micro := atol (substringFromArd fw (l + 1))
  (major, minor, micro)

def remoteNewer (fw : List Char) : Bool :=
  let v := parseFwVersion fw
  decide (v.1 > MAJOR_VERSION) ||
  (decide (v.1 = MAJOR_VERSION) && decide (v.2.1 > MINOR_VERSION)) ||
  (decide (v.1 = MAJOR_VERSION) && decide (v.2.1 = MINOR_VERSION) &&
    decide (v.2.2 > MICRO_VERSION))

/-! ## OTA control flow (`check_firmware_update`, lines 308-391)

The network collaborators (Firebase `getString`, `HTTPClient`, the `Update`
library) are abstracted into an environment record holding each call's
outcome; the function below transcribes the control flow of the sketch over
those outcomes. `written != contentLen` in the source compares a `size_t`
against an `int`, so the `int` is converted to 32-bit unsigned first. -/

structure OtaEnv where
  latestVersion : Option (List Char)
  urlOk : Bool
  httpGetCode : Int
  contentLen : Int
  canBegin : Bool
  written : Nat
  endOk : Bool
  isFinished : Bool

inductive OtaOutcome where
  | restart
  | finish
deriving DecidableEq

def check_firmware_update (env : OtaEnv) : OtaOutcome :=
  match env.latestVersion with
  | none => .finish
  | some fw =>
    if remoteNewer fw then
      if env.urlOk then
        if env.httpGetCode > 0 then
          if env.canBegin then
            if (env.written : Int) = (env.contentLen.emod ((2 : Int) ^ 32)) then
              if env.endOk then
                if env.isFinished then .restart else .finish
              else .finish
            else .finish
          else .finish
        else .finish
      else .finish
    else .finish

/-! ## Irrigation (`setup`, lines 150-192)

`readings k` is the ADC value returned by the `analogRead` performed on the
k-th iteration of the pump loop (the loop increments `pumpOnSeconds` to `k`
and then reads). The loop is

```
while (moistureValue > ADC_WET_VALUE && pumpOnSeconds < PUMP_ON_SECONDS_MAX)
  { delay(1000); pumpOnSeconds++; moistureValue = analogRead(...); }
```

embedded with structural fuel; `pumpLoopFuel_exit` below shows that with
fuel `PUMP_ON_SECONDS_MAX` (starting from `pumpOnSeconds = 0`) the fuel
never runs out before the loop condition fails, so this computes exactly
the `while` loop. `pumpEvents` records the `digitalWrite(pumpPin, ...)`
calls (`true` = HIGH). -/

def pumpLoopFuel (readings : Nat → Nat) : Nat → Nat → Nat → Nat × Nat
  | 0, m, s => (m, s)
  | fuel + 1, m, s =>
    if ADC_WET_VALUE < m ∧ s < PUMP_ON_SECONDS_MAX then
      pumpLoopFuel readings fuel (readings (s + 1)) (s + 1)
    else (m, s)

def pumpLoop (readings : Nat → Nat) (m : Nat) : Nat × Nat :=
  pumpLoopFuel readings PUMP_ON_SECONDS_MAX m 0

structure IrrigationResult where
  pumpEvents : List Bool
  finalMoisture : Nat
  pumpOnSeconds : Nat

def runIrrigationCycle (initial : Nat) (readings : Nat → Nat) : IrrigationResult :=
  if ADC_DRY_VALUE < initial then
    let r := pumpLoop readings initial
    { pumpEvents := [true, false], finalMoisture := r.1, pumpOnSeconds := r.2 }
  else
    { pumpEvents := [], finalMoisture := initial, pumpOnSeconds := 0 }

/-! ## Sleep scheduler (`setup`, lines 277-296, the release build branch) -/

structure TimeSample where
  valid : Bool
  hour : Nat
  minute : Nat
  mday : Nat
deriving DecidableEq

def computeSleepDuration (t : TimeSample) (updateSuccess : Bool) : Int :=
  if t.valid = true ∧ 20 < t.hour then
    (32 - (t.hour : Int)) * 3600 - (t.minute : Int) * 60
  else if t.valid = true ∧ t.hour < 8 then
    (8 - (t.hour : Int)) * 3600 - (t.minute : Int) * 60
  else if updateSuccess = true then TIME_TO_SLEEP
  else 60

def minutesPastMidnight (t : TimeSample) : Int :=
  (t.hour : Int) * 60 + (t.minute : Int)

/-- Restatement of the quiet-hours target from the claim's words: the
seconds remaining from `t` until the next 08:00 boundary (08:00 today when
the hour is before 8, 08:00 tomorrow otherwise), counting whole minutes. -/
def secondsUntilEight (t : TimeSample) : Int :=
  if 8 ≤ t.hour then (32 * 60 - minutesPastMidnight t) * 60
  else (8 * 60 - minutesPastMidnight t) * 60

/-- Shipped-build sleep computation: the sketch defines `DEBUG_LOG` at line
53, and lines 283-296 select `timeToSleepSecs = 5` under `#ifdef DEBUG_LOG`
and the quiet-hours policy only under `#else`. -/
def DEBUG_LOG : Bool := true

def timeToSleepSecsShipped (debugLog : Bool) (t : TimeSample)
    (updateSuccess : Bool) : Int :=
  if debugLog then 5 else computeSleepDuration t updateSuccess

/-! ## Per-wake-cycle state machine (`setup`, lines 137-302)

`RTC_DATA_ATTR` variables are the only state surviving deep sleep:
`struct tm timeinfo`, `bool rtc_valid = false`, `int previousDay = 0`
(lines 85-87). Every other global (`moistureValue`, `pumpOnSeconds`,
`updateSuccess`, ...) is re-initialised at each wake. -/

structure Tm where
  tm_hour : Nat
  tm_min : Nat
  tm_mday : Nat
deriving DecidableEq

structure PersistentState where
  timeinfo : Tm
  rtc_valid : Bool
  previousDay : Nat
deriving DecidableEq

def initialPersistentState : PersistentState :=
  { timeinfo := { tm_hour := 0, tm_min := 0, tm_mday := 0 },
    rtc_valid := false,
    previousDay := 0 }

/-- Remote-database operations the spec's interface section names; the
cycle function below records which of them the sketch actually issues.
The tunable constructors (`getTunable`, `setTunable`) correspond to the
per-parameter threshold/wake-period paths of the interface. -/
inductive RemoteOp where
  | pushTelemetry (moisture pumpSecs : Nat)
  | getVersion
  | setVersion (v : String)
  | getFwLatest
  | getFwUrl
  | getTunable (name : String)
  | setTunable (name : String) (value : Int)
deriving DecidableEq

def isTunableOp : RemoteOp → Bool
  | .getTunable _ => true
  | .setTunable _ _ => true
  | _ => false

/-- The `String current = String(MAJOR_VERSION) + "." + ...` of line 255. -/
def currentVersionString : String := "0.0.0"

/-- The version-publish block of lines 254-262: read the per-device
`/version` path; if the read succeeds and the value differs from the
compiled-in current version, write the current version; if the read fails,
write it as well. -/
def versionOps (remote : Option String) : List RemoteOp :=
  RemoteOp.getVersion ::
  (match remote with
   | some v => if currentVersionString ≠ v then
       [RemoteOp.setVersion currentVersionString] else []
   | none => [RemoteOp.setVersion currentVersionString])

/-- Remote reads issued by `check_firmware_update`: the `/latest` version
string always, the `/url` string only when the parsed remote version is
newer than the compiled-in one. -/
def otaOps (env : OtaEnv) : List RemoteOp :=
  RemoteOp.getFwLatest ::
  (match env.latestVersion with
   | none => []
   | some fw => if remoteNewer fw then [RemoteOp.getFwUrl] else [])

/-- Modelled from the spec: `getLocalTime` (Arduino-ESP32 core, not part of
this repository) writes the obtained time into the passed `struct tm` on
success; per the spec's Time Sync contract a failed sync leaves "the
previous stored time fields unchanged". -/
def syncTimeinfo (old : Tm) (res : Option Tm) : Tm :=
  match res with
  | some tm => tm
  | none => old

/-- Outcomes of the external collaborators during one wake cycle:
`wifiConnected` is the WiFi status after the bounded retry loop,
`ntpResult` the outcome of `getLocalTime`, `firebaseReady` the value of
`Fb_init() == true && Firebase.ready()`, `pushOk` the result of
`Firebase.RTDB.pushJSON`, `remoteVersion` the `/version` read in the daily
block, and `ota` the environment for `check_firmware_update`. -/
structure CycleEnv where
  initialMoisture : Nat
  pollReadings : Nat → Nat
  wifiConnected : Bool
  ntpResult : Option Tm
  firebaseReady : Bool
  pushOk : Bool
  remoteVersion : Option String
  ota : OtaEnv

structure CycleResult where
  finalState : PersistentState
  pushAttempt : Option (Nat × Nat × Bool)
  syncedThisCycle : Bool
  reconcileRan : Bool
  restarted : Bool
  remoteOps : List RemoteOp
  sleepSecsRelease : Option Int

/-- One wake cycle of `setup` over the persisted state: irrigation, WiFi
connect, time sync, telemetry push, the once-a-day block (OTA check and
version publish), then the sleep computation of the release build
(`sleepSecsRelease = none` on the OTA restart path, which bypasses it).
`pushAttempt` records the `fbJson` telemetry record handed to `pushJSON`
(final moisture value, `pumpOnSeconds`) and whether the push succeeded. -/
def runCycle (s : PersistentState) (env : CycleEnv) : CycleResult :=
  let irr := runIrrigationCycle env.initialMoisture env.pollReadings
  if env.wifiConnected then
    let synced := env.ntpResult.isSome
    let s1 : PersistentState :=
      { timeinfo := syncTimeinfo s.timeinfo env.ntpResult,
        rtc_valid := s.rtc_valid || synced,
        previousDay := s.previousDay }
    if env.firebaseReady then
      let push := some (irr.finalMoisture, irr.pumpOnSeconds, env.pushOk)
      let pushOps := [RemoteOp.pushTelemetry irr.finalMoisture irr.pumpOnSeconds]
      if s1.timeinfo.tm_mday ≠ s1.previousDay then
        let s2 : PersistentState := { s1 with previousDay := s1.timeinfo.tm_mday }
        if check_firmware_update env.ota = OtaOutcome.restart then
          { finalState := s2, pushAttempt := push, syncedThisCycle := synced,
            reconcileRan := true, restarted := true,
            remoteOps := pushOps ++ otaOps env.ota,
            sleepSecsRelease := none }
        else
          { finalState := s2, pushAttempt := push, syncedThisCycle := synced,
            reconcileRan := true, restarted := false,
            remoteOps := pushOps ++ otaOps env.ota ++ versionOps env.remoteVersion,
            sleepSecsRelease := some (computeSleepDuration
              ⟨s2.rtc_valid, s2.timeinfo.tm_hour, s2.timeinfo.tm_min,
               s2.timeinfo.tm_mday⟩ env.pushOk) }
      else
        { finalState := s1, pushAttempt := push, syncedThisCycle := synced,
          reconcileRan := false, restarted := false,
          remoteOps := pushOps,
          sleepSecsRelease := some (computeSleepDuration
            ⟨s1.rtc_valid, s1.timeinfo.tm_hour, s1.timeinfo.tm_min,
             s1.timeinfo.tm_mday⟩ env.pushOk) }
    else
      { finalState := s1, pushAttempt := none, syncedThisCycle := synced,
        reconcileRan := false, restarted := false,
        remoteOps := [],
        sleepSecsRelease := some (computeSleepDuration
          ⟨s1.rtc_valid, s1.timeinfo.tm_hour, s1.timeinfo.tm_min,
           s1.timeinfo.tm_mday⟩ false) }
  else
    { finalState := s, pushAttempt := none, syncedThisCycle := false,
      reconcileRan := false, restarted := false,
      remoteOps := [],
      sleepSecsRelease := some (computeSleepDuration
        ⟨s.rtc_valid, s.timeinfo.tm_hour, s.timeinfo.tm_min,
         s.timeinfo.tm_mday⟩ false) }

/-! ## Helper lemmas on the pump loop -/

lemma pumpLoopFuel_snd_le (readings : Nat → Nat) (fuel : Nat) :
    ∀ m s, s ≤ PUMP_ON_SECONDS_MAX →
      (pumpLoopFuel readings fuel m s).2 ≤ PUMP_ON_SECONDS_MAX := by
  induction fuel with
  | zero => intro m s h; simpa [pumpLoopFuel] using h
  | succ fuel ih =>
    intro m s h
    rw [pumpLoopFuel]
    split
    next hc => exact ih _ _ (by omega)
    next hc => simpa using h

lemma pumpLoopFuel_exit (readings : Nat → Nat) (fuel : Nat) :
    ∀ m s, PUMP_ON_SECONDS_MAX ≤ s + fuel →
      ¬(ADC_WET_VALUE < (pumpLoopFuel readings fuel m s).1 ∧
        (pumpLoopFuel readings fuel m s).2 < PUMP_ON_SECONDS_MAX) := by
  induction fuel with
  | zero =>
    intro m s h
    simp only [pumpLoopFuel]
    omega
  | succ fuel ih =>
    intro m s h
    rw [pumpLoopFuel]
    split
    next hc => exact ih _ _ (by omega)
    next hc => simpa using hc

/-! ## Claim theorems: irrigation and scheduling -/

/-- C6: for every moisture reading `v` obtained at cycle start, if
`v > ADC_DRY_VALUE` (5500) the controller writes HIGH to the pump pin at
least once during that cycle, and if `v ≤ ADC_DRY_VALUE` the pump pin is
never written HIGH. -/
theorem pump_driven_iff_dry (v : Nat) (readings : Nat → Nat) :
    true ∈ (runIrrigationCycle v readings).pumpEvents ↔ ADC_DRY_VALUE < v := by
  by_cases h : ADC_DRY_VALUE < v <;> simp [runIrrigationCycle, h]

/-- Sensor trace for the concrete pump-loop scenario: one-second polls
1 through 11 read 5000 (above the wet threshold), poll 12 reads 4000. -/
def c7readings : Nat → Nat := fun k => if k < 12 then 5000 else 4000

/-- C7: the pump actuation loop always terminates with elapsed pump-on
seconds at most `PUMP_ON_SECONDS_MAX` (180) for every sequence of sensor
readings; on exit the loop condition `value > ADC_WET_VALUE (4000) AND
elapsed < PUMP_ON_SECONDS_MAX` has failed; while the condition holds the
loop takes exactly one more poll step; the pump pin is written LOW after
the loop; and when the sensor first reports 4000 on the 12th one-second
poll the loop exits with `pumpOnSeconds = 12`. -/
theorem pump_loop_terminates_and_bounded :
    (∀ readings m, (pumpLoop readings m).2 ≤ PUMP_ON_SECONDS_MAX) ∧
    (∀ readings m, ¬(ADC_WET_VALUE < (pumpLoop readings m).1 ∧
        (pumpLoop readings m).2 < PUMP_ON_SECONDS_MAX)) ∧
    (∀ readings fuel m s, ADC_WET_VALUE < m → s < PUMP_ON_SECONDS_MAX →
        pumpLoopFuel readings (fuel + 1) m s
          = pumpLoopFuel readings fuel (readings (s + 1)) (s + 1)) ∧
    (∀ v readings, ADC_DRY_VALUE < v →
        (runIrrigationCycle v readings).pumpEvents.getLast? = some false) ∧
    (runIrrigationCycle 5600 c7readings).pumpOnSeconds = 12 ∧
    (runIrrigationCycle 5600 c7readings).finalMoisture = 4000 := by
  refine ⟨?_, ?_, ?_, ?_, by decide, by decide⟩
  · intro readings m
    exact pumpLoopFuel_snd_le readings PUMP_ON_SECONDS_MAX m 0 (Nat.zero_le _)
  · intro readings m
    exact pumpLoopFuel_exit readings PUMP_ON_SECONDS_MAX m 0 (by omega)
  · intro readings fuel m s h1 h2
    rw [pumpLoopFuel, if_pos ⟨h1, h2⟩]
  · intro v readings h
    simp [runIrrigationCycle, h]

theorem pump_loop_terminates_and_bounded_witness :
    pumpLoopFuel c7readings 1 5000 0 = pumpLoopFuel c7readings 0 (c7readings 1) 1 ∧
    (runIrrigationCycle 5600 c7readings).pumpEvents.getLast? = some false :=
  ⟨pump_loop_terminates_and_bounded.2.2.1 c7readings 0 5000 0 (by decide) (by decide),
   pump_loop_terminates_and_bounded.2.2.2.1 5600 c7readings (by decide)⟩

/-- C5: `computeSleepDuration` follows the ordered policy of the release
branch of lines 287-295: when the time sample is valid and the hour lies in
the quiet window (strictly after hour 20, or before hour 8) it returns the
seconds remaining until 08:00 with the minutes already elapsed in the hour
subtracted; otherwise `TIME_TO_SLEEP` (1200 s) on a successful push, else
the fixed 60-second retry; in particular hour 22 minute 15 gives 35100 s
and hour 3 minute 30 gives 16200 s. -/
theorem sleep_policy_ordered :
    (∀ t u, computeSleepDuration t u =
      if t.valid = true ∧ (20 < t.hour ∨ t.hour < 8) then secondsUntilEight t
      else if u = true then TIME_TO_SLEEP else 60) ∧
    computeSleepDuration ⟨true, 22, 15, 1⟩ false = 35100 ∧
    computeSleepDuration ⟨true, 3, 30, 1⟩ true = 16200 ∧
    TIME_TO_SLEEP = 1200 := by
  refine ⟨?_, by decide, by decide, by decide⟩
  intro t u
  rcases t with ⟨v, h, m, d⟩
  simp only [computeSleepDuration, secondsUntilEight, minutesPastMidnight]
  cases v with
  | false => simp
  | true =>
    by_cases h1 : 20 < h
    · rw [if_pos ⟨rfl, h1⟩, if_pos ⟨rfl, Or.inl h1⟩, if_pos (by omega : 8 ≤ h)]
      push_cast
      ring
    · by_cases h2 : h < 8
      · rw [if_neg (by simp [h1]), if_pos ⟨rfl, h2⟩, if_pos ⟨rfl, Or.inr h2⟩,
          if_neg (by omega)]
        push_cast
        ring
      · rw [if_neg (show ¬(true = true ∧ 20 < h) by simp [h1]),
          if_neg (show ¬(true = true ∧ h < 8) by simp [h2]),
          if_neg (show ¬(true = true ∧ (20 < h ∨ h < 8)) by simp [h1, h2])]

/-- C10: in the source as shipped, `DEBUG_LOG` is defined (line 53), so the
`#ifdef DEBUG_LOG` branch of lines 283-296 always sets the sleep duration
to 5 seconds, for every time sample and telemetry-push outcome. -/
theorem shipped_build_sleeps_five :
    (∀ t u, timeToSleepSecsShipped DEBUG_LOG t u = 5) ∧ DEBUG_LOG = true :=
  ⟨fun _ _ => rfl, rfl⟩

/-- C2: the version-parsing arithmetic of lines 314-316 does not recover
the documented MAJOR.MINOR.MICRO split: parsing the string "1.2.3" yields
(0, 0, 3), not (1, 2, 3). -/
theorem parse_version_off_by_one :
    parseFwVersion ("1.2.3".toList) = (0, 0, 3) ∧
    parseFwVersion ("1.2.3".toList) ≠ (1, 2, 3) := by
  constructor <;> decide

/-! ## Helper lemmas on the wake cycle -/

lemma runCycle_pushAttempt (s : PersistentState) (env : CycleEnv) :
    (runCycle s env).pushAttempt =
      (if env.wifiConnected && env.firebaseReady then
        some ((runIrrigationCycle env.initialMoisture env.pollReadings).finalMoisture,
              (runIrrigationCycle env.initialMoisture env.pollReadings).pumpOnSeconds,
              env.pushOk)
       else none) := by
  simp only [runCycle]
  repeat' split
  all_goals simp_all

lemma runCycle_reconcileRan (s : PersistentState) (env : CycleEnv) :
    (runCycle s env).reconcileRan =
      (env.wifiConnected && env.firebaseReady &&
        !((syncTimeinfo s.timeinfo env.ntpResult).tm_mday == s.previousDay)) := by
  simp only [runCycle]
  repeat' split
  all_goals simp_all

lemma runCycle_finalState_previousDay (s : PersistentState) (env : CycleEnv) :
    (runCycle s env).finalState.previousDay =
      (if env.wifiConnected && env.firebaseReady &&
          !((syncTimeinfo s.timeinfo env.ntpResult).tm_mday == s.previousDay)
       then (syncTimeinfo s.timeinfo env.ntpResult).tm_mday
       else s.previousDay) := by
  simp only [runCycle]
  repeat' split
  all_goals simp_all

lemma runCycle_restarted (s : PersistentState) (env : CycleEnv) :
    (runCycle s env).restarted =
      (env.wifiConnected && env.firebaseReady &&
        !((syncTimeinfo s.timeinfo env.ntpResult).tm_mday == s.previousDay) &&
        decide (check_firmware_update env.ota = OtaOutcome.restart)) := by
  simp only [runCycle]
  repeat' split
  all_goals simp_all

lemma runCycle_remoteOps (s : PersistentState) (env : CycleEnv) :
    (runCycle s env).remoteOps =
      (if env.wifiConnected && env.firebaseReady then
        [RemoteOp.pushTelemetry
          (runIrrigationCycle env.initialMoisture env.pollReadings).finalMoisture
          (runIrrigationCycle env.initialMoisture env.pollReadings).pumpOnSeconds]
       else []) ++
      (if env.wifiConnected && env.firebaseReady &&
          !((syncTimeinfo s.timeinfo env.ntpResult).tm_mday == s.previousDay)
       then otaOps env.ota else []) ++
      (if env.wifiConnected && env.firebaseReady &&
          !((syncTimeinfo s.timeinfo env.ntpResult).tm_mday == s.previousDay) &&
          !(decide (check_firmware_update env.ota = OtaOutcome.restart))
       then versionOps env.remoteVersion else []) := by
  simp only [runCycle]
  repeat' split
  all_goals simp_all

lemma otaOps_no_tunable (o : OtaEnv) : (otaOps o).any isTunableOp = false := by
  unfold otaOps
  cases o.latestVersion with
  | none => rfl
  | some fw => by_cases h : remoteNewer fw = true <;> simp [h, isTunableOp]

lemma versionOps_no_tunable (rv : Option String) :
    (versionOps rv).any isTunableOp = false := by
  unfold versionOps
  cases rv with
  | none => rfl
  | some v => by_cases h : currentVersionString = v <;> simp [h, isTunableOp]

lemma setVersion_not_mem_otaOps (o : OtaEnv) (v : String) :
    RemoteOp.setVersion v ∉ otaOps o := by
  unfold otaOps
  cases o.latestVersion with
  | none => simp
  | some fw => by_cases h : remoteNewer fw = true <;> simp [h]

lemma setVersion_mem_versionOps (rv : Option String) :
    RemoteOp.setVersion currentVersionString ∈ versionOps rv ↔
      rv ≠ some currentVersionString := by
  unfold versionOps
  cases rv with
  | none => simp
  | some v =>
    by_cases h : currentVersionString = v
    · subst h; simp
    · simp [h, Ne.symm h]

/-! ## Claim theorems: telemetry, reconciliation, OTA, persisted validity -/

/-- OTA environment in which every remote firmware read fails. -/
def otaAllFail : OtaEnv :=
  { latestVersion := none, urlOk := false, httpGetCode := 0, contentLen := 0,
    canBegin := false, written := 0, endOk := false, isFinished := false }

def c1readings : Nat → Nat := fun k => if k < 12 then 5000 else 4000

def c1env1 : CycleEnv :=
  { initialMoisture := 5600, pollReadings := c1readings, wifiConnected := true,
    ntpResult := some ⟨10, 0, 5⟩, firebaseReady := true, pushOk := false,
    remoteVersion := none, ota := otaAllFail }

def c1env2 : CycleEnv :=
  { initialMoisture := 5000, pollReadings := fun _ => 5000, wifiConnected := true,
    ntpResult := some ⟨10, 30, 5⟩, firebaseReady := true, pushOk := true,
    remoteVersion := none, ota := otaAllFail }

/-- C1 counterexample: a cycle whose pump ran 12 seconds pushes
(moisture 4000, pump 12) and the push fails; nothing of it is retained in
the persisted state, and the next cycle's successful push reports that
cycle's own pump value 0, not the lost 12. -/
theorem telemetry_at_least_once_counterexample :
    (runCycle initialPersistentState c1env1).pushAttempt = some (4000, 12, false) ∧
    (runCycle (runCycle initialPersistentState c1env1).finalState c1env2).pushAttempt
      = some (5000, 0, true) ∧
    (runCycle (runCycle initialPersistentState c1env1).finalState c1env2).pushAttempt
      ≠ some (5000, 12, true) := by
  refine ⟨by decide, by decide, by decide⟩

/-- C1 amended: telemetry is at-most-once — the pump-on value handed to the
telemetry push is computed from the current cycle's own readings alone
(`pumpOnSeconds` is a per-wake global, not `RTC_DATA_ATTR`); no
`pending_pump_seconds` survives deep sleep, so the pushed record does not
depend on the persisted state and a failed push's pump-on duration is
dropped. -/
theorem telemetry_push_uses_current_cycle_only (s s2 : PersistentState)
    (env : CycleEnv) :
    (runCycle s env).pushAttempt = (runCycle s2 env).pushAttempt ∧
    (runCycle s env).pushAttempt =
      (if env.wifiConnected && env.firebaseReady then
        some ((runIrrigationCycle env.initialMoisture env.pollReadings).finalMoisture,
              (runIrrigationCycle env.initialMoisture env.pollReadings).pumpOnSeconds,
              env.pushOk)
       else none) :=
  ⟨(runCycle_pushAttempt s env).trans (runCycle_pushAttempt s2 env).symm,
   runCycle_pushAttempt s env⟩

def c3envA : CycleEnv :=
  { initialMoisture := 5000, pollReadings := fun _ => 5000, wifiConnected := true,
    ntpResult := some ⟨10, 0, 5⟩, firebaseReady := false, pushOk := false,
    remoteVersion := none, ota := otaAllFail }

def c3envB : CycleEnv :=
  { initialMoisture := 5000, pollReadings := fun _ => 5000, wifiConnected := true,
    ntpResult := none, firebaseReady := true, pushOk := true,
    remoteVersion := none, ota := otaAllFail }

/-- C3 counterexample: a cycle whose own time sync failed (so the cycle has
no valid time sample) still executes the daily reconciliation block,
because the gate only compares the stale persisted `timeinfo.tm_mday` with
`previousDay` and never consults time validity. -/
theorem reconcile_gate_counterexample :
    (runCycle (runCycle initialPersistentState c3envA).finalState c3envB).syncedThisCycle
      = false ∧
    (runCycle (runCycle initialPersistentState c3envA).finalState c3envB).reconcileRan
      = true := by
  refine ⟨by decide, by decide⟩

/-- C3 amended: the daily block executes iff WiFi is connected, Firebase is
ready, and the (possibly stale) persisted `timeinfo.tm_mday` after this
cycle's sync attempt differs from `previousDay`; time validity is not part
of the gate. The at-most-once-per-day consequence does hold: if a cycle ran
the block, a following cycle that syncs to the same day-of-month does not
run it again. -/
theorem reconcile_gate_characterization (s : PersistentState)
    (env env2 : CycleEnv) (tm2 : Tm) :
    ((runCycle s env).reconcileRan =
      (env.wifiConnected && env.firebaseReady &&
        !((syncTimeinfo s.timeinfo env.ntpResult).tm_mday == s.previousDay))) ∧
    ((runCycle s env).reconcileRan = true →
      env2.ntpResult = some tm2 →
      tm2.tm_mday = (syncTimeinfo s.timeinfo env.ntpResult).tm_mday →
      (runCycle (runCycle s env).finalState env2).reconcileRan = false) := by
  refine ⟨runCycle_reconcileRan s env, ?_⟩
  intro h1 hntp hday
  rw [runCycle_reconcileRan] at h1
  rw [runCycle_reconcileRan, hntp]
  simp only [syncTimeinfo]
  rw [runCycle_finalState_previousDay, if_pos h1]
  simp [hday]

def c3tmW : Tm := ⟨11, 0, 5⟩

def c3stateW : PersistentState := ⟨⟨9, 0, 5⟩, true, 0⟩

def c3envW : CycleEnv :=
  { initialMoisture := 5000, pollReadings := fun _ => 5000, wifiConnected := true,
    ntpResult := some ⟨9, 30, 5⟩, firebaseReady := true, pushOk := true,
    remoteVersion := none, ota := otaAllFail }

def c3envW2 : CycleEnv :=
  { initialMoisture := 5000, pollReadings := fun _ => 5000, wifiConnected := true,
    ntpResult := some c3tmW, firebaseReady := true, pushOk := true,
    remoteVersion := none, ota := otaAllFail }

theorem reconcile_gate_characterization_witness :
    (runCycle (runCycle c3stateW c3envW).finalState c3envW2).reconcileRan = false :=
  (reconcile_gate_characterization c3stateW c3envW c3envW2 c3tmW).2
    (by decide) (by decide) (by decide)

def c4env : CycleEnv :=
  { initialMoisture := 5000, pollReadings := fun _ => 5000, wifiConnected := true,
    ntpResult := some ⟨10, 0, 7⟩, firebaseReady := true, pushOk := true,
    remoteVersion := some "9.9.9", ota := otaAllFail }

/-- C4 counterexample: a cycle in which the daily block triggers yet no
remote read or write of any tunable (threshold or wake-period) path is
performed — the comparison the claim describes does not happen. -/
theorem tunables_not_reconciled_counterexample :
    (runCycle initialPersistentState c4env).reconcileRan = true ∧
    (runCycle initialPersistentState c4env).remoteOps.any isTunableOp = false := by
  refine ⟨by decide, by decide⟩

/-- C4 amended: a wake cycle never touches the tunable threshold or
wake-period paths (they are compile-time constants); when the daily block
runs without an OTA restart, the only local-versus-remote comparison is of
the firmware version string at the per-device version path, and there the
LOCAL value wins: the compiled-in version is written to the remote path iff
the remote value is absent or differs from it. -/
theorem reconcile_version_only (s : PersistentState) (env : CycleEnv) :
    ((runCycle s env).remoteOps.any isTunableOp = false) ∧
    ((runCycle s env).reconcileRan = true → (runCycle s env).restarted = false →
       RemoteOp.getVersion ∈ (runCycle s env).remoteOps ∧
       (RemoteOp.setVersion currentVersionString ∈ (runCycle s env).remoteOps ↔
         env.remoteVersion ≠ some currentVersionString)) := by
  constructor
  · rw [runCycle_remoteOps]
    simp only [List.any_append, Bool.or_eq_false_iff]
    refine ⟨⟨?_, ?_⟩, ?_⟩ <;> split <;>
      simp_all [isTunableOp, otaOps_no_tunable, versionOps_no_tunable]
  · intro h1 h2
    rw [runCycle_reconcileRan] at h1
    rw [runCycle_restarted] at h2
    have hck : decide (check_firmware_update env.ota = OtaOutcome.restart) = false := by
      cases hd : decide (check_firmware_update env.ota = OtaOutcome.restart) with
      | false => rfl
      | true => rw [h1, hd] at h2; simp at h2
    have h1c := h1
    simp only [Bool.and_eq_true] at h1c
    have hwf : (env.wifiConnected && env.firebaseReady) = true := by
      rw [h1c.1.1, h1c.1.2]; rfl
    have h3 : (env.wifiConnected && env.firebaseReady &&
        !((syncTimeinfo s.timeinfo env.ntpResult).tm_mday == s.previousDay) &&
        !(decide (check_firmware_update env.ota = OtaOutcome.restart))) = true := by
      rw [h1, hck]; rfl
    rw [runCycle_remoteOps, if_pos hwf, if_pos h1, if_pos h3]
    constructor
    · simp [versionOps]
    · simp [setVersion_mem_versionOps, setVersion_not_mem_otaOps]

theorem reconcile_version_only_witness :
    RemoteOp.getVersion ∈ (runCycle initialPersistentState c4env).remoteOps ∧
    (RemoteOp.setVersion currentVersionString
        ∈ (runCycle initialPersistentState c4env).remoteOps ↔
      c4env.remoteVersion ≠ some currentVersionString) :=
  (reconcile_version_only initialPersistentState c4env).2 (by decide) (by decide)

lemma check_firmware_update_restart_iff (env : OtaEnv) :
    check_firmware_update env = OtaOutcome.restart ↔
      (∃ fw, env.latestVersion = some fw ∧ remoteNewer fw = true) ∧
      env.urlOk = true ∧ env.httpGetCode > 0 ∧ env.canBegin = true ∧
      (env.written : Int) = env.contentLen.emod ((2 : Int) ^ 32) ∧
      env.endOk = true ∧ env.isFinished = true := by
  rcases env with ⟨lv, u, code, clen, cb, w, e, f⟩
  cases lv with
  | none => simp [check_firmware_update]
  | some fw =>
    simp only [check_firmware_update]
    split_ifs <;> simp_all

/-- C8: `check_firmware_update` restarts the device only when the staging
begin succeeded, the written byte count equals the declared content length
(under C's `size_t` conversion of the `int` length), the finalize step
succeeded, and the update reports finished; any single partial failure
makes it return without restarting, and for an in-range declared length a
restart implies the written bytes literally equal it. -/
theorem ota_restart_only_on_full_success (env : OtaEnv) :
    (check_firmware_update env = OtaOutcome.restart →
       env.canBegin = true ∧
       (env.written : Int) = env.contentLen.emod ((2 : Int) ^ 32) ∧
       env.endOk = true ∧ env.isFinished = true) ∧
    ((env.written : Int) ≠ env.contentLen.emod ((2 : Int) ^ 32) →
       check_firmware_update env = OtaOutcome.finish) ∧
    (env.canBegin = false → check_firmware_update env = OtaOutcome.finish) ∧
    (env.endOk = false → check_firmware_update env = OtaOutcome.finish) ∧
    (env.isFinished = false → check_firmware_update env = OtaOutcome.finish) ∧
    (0 ≤ env.contentLen → env.contentLen < (2 : Int) ^ 32 →
       check_firmware_update env = OtaOutcome.restart →
       (env.written : Int) = env.contentLen) := by
  have hiff := check_firmware_update_restart_iff env
  have hfin : check_firmware_update env ≠ OtaOutcome.restart →
      check_firmware_update env = OtaOutcome.finish := by
    intro h
    cases hck : check_firmware_update env with
    | restart => exact absurd hck h
    | finish => rfl
  refine ⟨?_, ?_, ?_, ?_, ?_, ?_⟩
  · intro h
    exact ⟨(hiff.mp h).2.2.2.1, (hiff.mp h).2.2.2.2.1,
      (hiff.mp h).2.2.2.2.2.1, (hiff.mp h).2.2.2.2.2.2⟩
  · intro hw
    exact hfin (fun h => hw (hiff.mp h).2.2.2.2.1)
  · intro hcb
    refine hfin (fun h => ?_)
    have := (hiff.mp h).2.2.2.1
    rw [hcb] at this
    exact Bool.false_ne_true this
  · intro he
    refine hfin (fun h => ?_)
    have := (hiff.mp h).2.2.2.2.2.1
    rw [he] at this
    exact Bool.false_ne_true this
  · intro hf
    refine hfin (fun h => ?_)
    have := (hiff.mp h).2.2.2.2.2.2
    rw [hf] at this
    exact Bool.false_ne_true this
  · intro h0 hlt hres
    rw [(hiff.mp hres).2.2.2.2.1]
    exact Int.emod_eq_of_lt h0 hlt

/-- Truncated-download OTA environment: remote version is newer, but only
50 of the declared 100 bytes arrive. -/
def c8envTrunc : OtaEnv :=
  { latestVersion := some ("9.9.9".toList), urlOk := true, httpGetCode := 200,
    contentLen := 100, canBegin := true, written := 50, endOk := true,
    isFinished := true }

theorem ota_restart_only_on_full_success_witness :
    check_firmware_update c8envTrunc = OtaOutcome.finish :=
  (ota_restart_only_on_full_success c8envTrunc).2.1 (by decide)

def c9env1 : CycleEnv :=
  { initialMoisture := 5000, pollReadings := fun _ => 5000, wifiConnected := true,
    ntpResult := some ⟨6, 0, 5⟩, firebaseReady := true, pushOk := true,
    remoteVersion := none, ota := otaAllFail }

def c9env2 : CycleEnv :=
  { initialMoisture := 5000, pollReadings := fun _ => 5000, wifiConnected := true,
    ntpResult := none, firebaseReady := true, pushOk := true,
    remoteVersion := none, ota := otaAllFail }

/-- C9 counterexample: after a cycle with a successful sync, the persisted
`rtc_valid` is already true at the start of the next cycle, and a cycle
whose own sync failed still applies quiet-hours logic from the stale flag
and stale `timeinfo` (sleeping 7200 s for stale hour 6). -/
theorem rtc_valid_stale_counterexample :
    (runCycle initialPersistentState c9env1).finalState.rtc_valid = true ∧
    (runCycle (runCycle initialPersistentState c9env1).finalState c9env2).syncedThisCycle
      = false ∧
    (runCycle (runCycle initialPersistentState c9env1).finalState c9env2).sleepSecsRelease
      = some 7200 := by
  refine ⟨by decide, by decide, by decide⟩

/-- C9 amended: `rtc_valid` is persistent across deep sleep, not reset per
cycle: after any cycle it equals the previous persisted value OR-ed with
this cycle's sync success, so it is set (only) by a successful sync and
never cleared, and later cycles rely on the stale flag. -/
theorem rtc_valid_persistent_monotone (s : PersistentState) (env : CycleEnv) :
    (runCycle s env).finalState.rtc_valid
      = (s.rtc_valid || (env.wifiConnected && env.ntpResult.isSome)) := by
  simp only [runCycle]
  repeat' split
  all_goals simp_all

end SoilMoisture
